import Mathlib

/-!
Shallow embedding of the GSN relay server (RelayServer class) and proofs of
the specification claims about it.  Pure computations are translated to Lean
functions; the effectful methods become explicit state-passing functions over
a RelayServerState, with all chain / store / RPC reads supplied by explicit
environment records (oracles).  Log texts and interpolated parts of error
messages are abstracted to fixed strings; control flow follows the source.
-/

namespace GSN

/-- JavaScript's Number.MAX_SAFE_INTEGER, the initial value of the
lastSuccessfulRounds counter in the RelayServer constructor. -/
def MAX_SAFE_INTEGER : Nat := 2 ^ 53 - 1

/-- The GAS_RESERVE constant of RelayServer. -/
def GAS_RESERVE : Nat := 100000

/-- JavaScript's String toLowerCase and toLocaleLowerCase as the source
applies them to hex addresses: character-wise lower-casing. -/
def toLowerCase (s : String) : String := String.mk (s.data.map Char.toLower)

/-- Paymaster gas limits as returned by getGasLimits (PaymasterGasLimits). -/
structure GasLimits where
  acceptanceBudget : Nat
  preRelayedCallGasLimit : Nat
  postRelayedCallGasLimit : Nat
deriving Repr, DecidableEq

/-- The server actions recorded on stored transactions.  Modelled from the
spec: StoredTransaction.ts is not among the provided sources; the spec section
3 enumerates serverAction as this set. -/
inductive ServerAction where
  | REGISTER_SERVER
  | ADD_WORKER
  | AUTHORIZE_HUB
  | STAKE
  | UNSTAKE
  | RELAY_CALL
  | VALUE_TRANSFER
  | DEPOSIT_WITHDRAWAL
  | SET_OWNER
deriving Repr, DecidableEq

/-- An event log entry as far as the server inspects it: the event name and
the block it occurred in. -/
structure EventData where
  event : String
  blockNumber : Nat
deriving Repr, DecidableEq

/-- The TransactionRejectedByPaymaster event name. -/
def TransactionRejectedByPaymaster : String := "TransactionRejectedByPaymaster"

/-- The configuration fields of ServerConfigParams that the claims touch.
Balance-valued fields are Int because the source compares BN differences that
may be negative. -/
structure ServerConfigParams where
  devMode : Bool
  successfulRoundsForReady : Nat
  pctRelayFee : Nat
  baseRelayFee : Nat
  maxAcceptanceBudget : Nat
  managerMinBalance : Int
  managerTargetBalance : Int
  minHubWithdrawalBalance : Int
  workerMinBalance : Int
  workerTargetBalance : Int
  registrationBlockRate : Nat
  refreshStateTimeoutBlocks : Nat
  alertedBlockDelay : Nat
  readyTimeout : Nat
  minAlertedDelayMS : Nat
  maxAlertedDelayMS : Nat
  trustedPaymasters : List String
deriving Repr, DecidableEq

/-- Immutable address fields of the server (set in the constructor). -/
structure ServerView where
  managerAddress : String
  workerAddress : String
deriving Repr, DecidableEq

/-- The mutable fields of RelayServer that the claims touch. -/
structure RelayServerState where
  lastScannedBlock : Nat
  lastRefreshBlock : Nat
  ready : Bool
  lastSuccessfulRounds : Nat
  gasPrice : Nat
  alerted : Bool
  alertedBlock : Nat
  initialized : Bool
  trustedPaymastersGasLimits : List (String × GasLimits)
  relayHubAddress : String
  chainId : Nat
  networkId : Nat
  lastMinedActiveTransaction : Option EventData
deriving Repr, DecidableEq

/-- The field initializers of the RelayServer constructor (lastScannedBlock 0,
ready false, lastSuccessfulRounds MAX_SAFE_INTEGER, gasPrice 0, alerted false,
alertedBlock 0, private initialized false, empty trusted paymaster map). -/
def initialServerState : RelayServerState :=
  { lastScannedBlock := 0
  , lastRefreshBlock := 0
  , ready := false
  , lastSuccessfulRounds := MAX_SAFE_INTEGER
  , gasPrice := 0
  , alerted := false
  , alertedBlock := 0
  , initialized := false
  , trustedPaymastersGasLimits := []
  , relayHubAddress := ""
  , chainId := 0
  , networkId := 0
  , lastMinedActiveTransaction := none }

/-- Lookup in the trustedPaymastersGasLimits map (JS Map.get). -/
def mapGet (m : List (String × GasLimits)) (k : String) : Option GasLimits :=
  (m.find? (fun kv => kv.1 = k)).map (fun kv => kv.2)

/-- RelayServer.isReady: false while lastSuccessfulRounds is below
successfulRoundsForReady, otherwise the ready flag. -/
def isReady (cfg : ServerConfigParams) (st : RelayServerState) : Bool :=
  if st.lastSuccessfulRounds < cfg.successfulRoundsForReady then false
  else st.ready

/-- RelayServer.setReadyState: stores the flag (logging omitted). -/
def setReadyState (st : RelayServerState) (b : Bool) : RelayServerState :=
  { st with ready := b }

/-- RelayServer.isTrustedPaymaster: membership of the lower-cased address in
the trusted paymaster gas-limits map. -/
def isTrustedPaymaster (m : List (String × GasLimits)) (paymaster : String) : Bool :=
  (mapGet m (toLowerCase paymaster)).isSome

/-- True on the error constructor of Except. -/
def isErr {ε α : Type} : Except ε α → Bool
  | Except.error _ => true
  | Except.ok _ => false

/-- The relayData part of a relay request (fields the server reads; the
IntString fields gasPrice, pctRelayFee, baseRelayFee are modelled as the
numbers the source parses them to). -/
structure RelayData where
  gasPrice : Nat
  pctRelayFee : Nat
  baseRelayFee : Nat
  relayWorker : String
  paymaster : String
deriving Repr, DecidableEq

/-- The forwarder request part (only the gas field is read by the server). -/
structure ForwardRequest where
  gas : Nat
deriving Repr, DecidableEq

/-- relayRequest = forwarder request plus relay data. -/
structure RelayRequestBody where
  request : ForwardRequest
  relayData : RelayData
deriving Repr, DecidableEq

/-- The metadata part of a relay transaction request. -/
structure RelayMetadata where
  relayHubAddress : String
  relayMaxNonce : Nat
deriving Repr, DecidableEq

/-- A relay transaction request as the server reads it. -/
structure RelayTransactionRequest where
  relayRequest : RelayRequestBody
  metadata : RelayMetadata
deriving Repr, DecidableEq

/-- RelayServer.validateInput: reject a wrong hub address, a wrong worker
address (case-insensitive), and a request gas price below the server's
current gas price (this.gasPrice > parseInt(request gasPrice)). -/
def validateInput (hubAddress workerAddress : String) (gasPrice : Nat)
    (req : RelayTransactionRequest) : Except String Unit :=
  if req.metadata.relayHubAddress ≠ hubAddress then
    Except.error ("Wrong hub address")
  else if toLowerCase req.relayRequest.relayData.relayWorker ≠ toLowerCase workerAddress then
    Except.error ("Wrong worker address")
  else if gasPrice > req.relayRequest.relayData.gasPrice then
    Except.error ("Unacceptable gasPrice")
  else
    Except.ok ()

/-- RelayServer.validateFees: a trusted paymaster is trusted to handle fees;
otherwise pctRelayFee and baseRelayFee must each reach the configured
minimum. -/
def validateFees (cfg : ServerConfigParams) (m : List (String × GasLimits))
    (req : RelayTransactionRequest) : Except String Unit :=
  if isTrustedPaymaster m req.relayRequest.relayData.paymaster then
    Except.ok ()
  else if req.relayRequest.relayData.pctRelayFee < cfg.pctRelayFee then
    Except.error ("Unacceptable pctRelayFee")
  else if req.relayRequest.relayData.baseRelayFee < cfg.baseRelayFee then
    Except.error ("Unacceptable baseRelayFee")
  else
    Except.ok ()

/-- The arguments of TransactionManager.sendTransaction that the server
builds (SendTransactionDetails).  The encoded method data is abstracted. -/
structure SendTransactionDetails where
  signer : String
  serverAction : ServerAction
  destination : String
  value : Option Int
  gasLimit : Nat
  gasPrice : Option Nat
  creationBlockNumber : Nat
deriving Repr, DecidableEq

/-- Modelled from the spec: defaultEnvironment.mintxgascost (Environments.ts
is not among the provided sources); the minimal gas cost of a plain value
transfer, used as the gas limit of worker refill transactions.  Its numeric
value is irrelevant to the claims. -/
def mintxgascost : Nat := 21000

/-- The oracle reads replenishServer performs, in program order: the first
getManagerBalance, the hub balanceOf(manager), getWorkerBalance, the
isActionPending(DEPOSIT_WITHDRAWAL) query, the estimated withdrawal gas, the
second getManagerBalance, and the isActionPending(VALUE_TRANSFER, worker)
query, plus the transaction hashes the sends would return. -/
structure ReplenishEnv where
  managerEthBalance1 : Int
  managerHubBalance : Int
  workerBalance : Int
  isWithdrawalPending : Bool
  withdrawGasLimit : Nat
  managerEthBalance2 : Int
  isReplenishPendingForWorker : Bool
  withdrawTxHash : String
  transferTxHash : String
deriving Repr, DecidableEq

/-- What one replenishServer pass did: the transactions it sent (with their
hashes, in order), whether it emitted the fundingNeeded event, and whether it
logged the cannot-replenish error. -/
structure ReplenishOutcome where
  sends : List SendTransactionDetails
  hashes : List String
  fundingNeeded : Bool
  errorLogged : Bool
deriving Repr, DecidableEq

/-- The SendTransactionDetails of the manager hub-deposit withdrawal built
inside replenishServer. -/
def managerWithdrawDetails (srv : ServerView) (hubAddress : String)
    (gasLimit : Nat) (currentBlock : Nat) : SendTransactionDetails :=
  { signer := srv.managerAddress
  , serverAction := ServerAction.DEPOSIT_WITHDRAWAL
  , destination := hubAddress
  , value := none
  , gasLimit := gasLimit
  , gasPrice := none
  , creationBlockNumber := currentBlock }

/-- The SendTransactionDetails of the manager-to-worker VALUE_TRANSFER built
inside replenishServer. -/
def workerRefillDetails (srv : ServerView) (refill : Int) (currentBlock : Nat) :
    SendTransactionDetails :=
  { signer := srv.managerAddress
  , serverAction := ServerAction.VALUE_TRANSFER
  , destination := srv.workerAddress
  , value := some refill
  , gasLimit := mintxgascost
  , gasPrice := none
  , creationBlockNumber := currentBlock }

/-- RelayServer.replenishServer: withdraw the manager's hub deposit when the
manager eth balance is below target and the hub balance reaches the
withdrawal minimum (unless such a withdrawal is pending), then refill the
worker from the manager when the worker balance is unsatisfied (unless a
VALUE_TRANSFER for the worker is pending): the refill is sent only when it is
strictly below managerEthBalance minus managerMinBalance, otherwise the
fundingNeeded event is emitted and an error logged. -/
def replenishServer (cfg : ServerConfigParams) (srv : ServerView)
    (hubAddress : String) (env : ReplenishEnv) (currentBlock : Nat) : ReplenishOutcome :=
  let managerEthBalance := env.managerEthBalance1
  let managerHubBalance := env.managerHubBalance
  let workerBalanceSatisfied := env.workerBalance ≥ cfg.workerMinBalance
  if managerEthBalance ≥ cfg.managerTargetBalance ∧ workerBalanceSatisfied then
    -- all filled, nothing to do
    { sends := [], hashes := [], fundingNeeded := false, errorLogged := false }
  else
    let mustWithdrawHubDeposit :=
      managerEthBalance < cfg.managerTargetBalance ∧
        managerHubBalance ≥ cfg.minHubWithdrawalBalance
    let withdrawSends :=
      if mustWithdrawHubDeposit ∧ ¬ env.isWithdrawalPending then
        [managerWithdrawDetails srv hubAddress env.withdrawGasLimit currentBlock]
      else []
    let withdrawHashes := if mustWithdrawHubDeposit ∧ ¬ env.isWithdrawalPending then
        [env.withdrawTxHash] else []
    let managerEthBalance := env.managerEthBalance2
    let mustReplenishWorker := ¬ workerBalanceSatisfied
    if mustReplenishWorker ∧ ¬ env.isReplenishPendingForWorker then
      let refill := cfg.workerTargetBalance - env.workerBalance
      if refill < managerEthBalance - cfg.managerMinBalance then
        { sends := withdrawSends ++ [workerRefillDetails srv refill currentBlock]
        , hashes := withdrawHashes ++ [env.transferTxHash]
        , fundingNeeded := false, errorLogged := false }
      else
        { sends := withdrawSends, hashes := withdrawHashes
        , fundingNeeded := true, errorLogged := true }
    else
      { sends := withdrawSends, hashes := withdrawHashes
      , fundingNeeded := false, errorLogged := false }

/-- Modelled from the spec: common/Utils.calculateTransactionMaxPossibleGas
is not among the provided sources; spec section 4.5 item 8 gives
maxPossibleGas as GAS_RESERVE + hubOverhead + paymasterPreGas + requestGas +
paymasterPostGas, with GAS_RESERVE added by the caller. -/
def calculateTransactionMaxPossibleGas (gasLimits : GasLimits) (hubOverhead : Nat)
    (relayCallGasLimit : Nat) : Nat :=
  hubOverhead + gasLimits.preRelayedCallGasLimit + relayCallGasLimit +
    gasLimits.postRelayedCallGasLimit

/-- The result of the view-only relayCall. -/
structure ViewCallResult where
  paymasterAccepted : Bool
  returnValue : String
deriving Repr, DecidableEq

/-- The oracle reads of the admission pipeline (createRelayTransaction), in
program order: the ow shape check, the polled worker nonce, the on-chain
getGasLimits fetch for an uncached paymaster, the hub gasOverhead, the hub
calculateCharge as a function of maxPossibleGas, the paymaster hub balance,
the view relayCall as a function of acceptance budget and maxPossibleGas, the
current block number, and the signed transaction a send would return. -/
structure AdmissionEnv where
  shapeOk : Bool
  pollNonce : Nat
  getGasLimits : Except String GasLimits
  hubOverhead : Nat
  calculateCharge : Nat → Int
  paymasterBalance : Int
  viewRelayCall : Nat → Nat → Except String ViewCallResult
  currentBlock : Nat
  signedTx : String

/-- RelayServer.validateInputTypes: the ow exact-shape check of the request.
Modelled from the spec: RelayTransactionRequestShape is not among the
provided sources, so the shape verdict is an oracle bit of the environment
(spec section 4.5 item 1: every field matches the declared schema). -/
def validateInputTypes (env : AdmissionEnv) : Except String Unit :=
  if env.shapeOk then Except.ok () else Except.error ("invalid request shape")

/-- RelayServer.validateMaxNonce: reject when the polled worker nonce exceeds
the request's relayMaxNonce. -/
def validateMaxNonce (env : AdmissionEnv) (relayMaxNonce : Nat) : Except String Unit :=
  if env.pollNonce > relayMaxNonce then
    Except.error ("Unacceptable relayMaxNonce")
  else Except.ok ()

/-- RelayServer.validatePaymasterGasLimits: take the gas limits from the
trusted-paymaster cache (exact-key Map.get, no lower-casing) or fetch them
on-chain; an uncached paymaster whose acceptance budget exceeds
maxAcceptanceBudget is rejected unless trusted; then require the paymaster's
hub balance to cover the maximal charge.  Returns (acceptanceBudget,
maxPossibleGas). -/
def validatePaymasterGasLimits (cfg : ServerConfigParams)
    (m : List (String × GasLimits)) (env : AdmissionEnv)
    (req : RelayTransactionRequest) : Except String (Nat × Nat) :=
  let paymaster := req.relayRequest.relayData.paymaster
  let finish : GasLimits → Nat → Except String (Nat × Nat) := fun gasLimits acceptanceBudget =>
    let maxPossibleGas := GAS_RESERVE +
      calculateTransactionMaxPossibleGas gasLimits env.hubOverhead
        req.relayRequest.request.gas
    let maxCharge := env.calculateCharge maxPossibleGas
    if env.paymasterBalance < maxCharge then
      Except.error ("paymaster balance too low")
    else
      Except.ok (acceptanceBudget, maxPossibleGas)
  match mapGet m paymaster with
  | none =>
    match env.getGasLimits with
    | Except.error _ => Except.error ("unknown paymaster error")
    | Except.ok gasLimits =>
      let acceptanceBudget := cfg.maxAcceptanceBudget
      let paymasterAcceptanceBudget := gasLimits.acceptanceBudget
      if paymasterAcceptanceBudget > acceptanceBudget then
        if ¬ isTrustedPaymaster m paymaster then
          Except.error ("paymaster acceptance budget too high")
        else
          finish gasLimits paymasterAcceptanceBudget
      else
        finish gasLimits acceptanceBudget
  | some gasLimits =>
    -- a trusted paymaster: use its acceptance budget as-is
    finish gasLimits gasLimits.acceptanceBudget

/-- RelayServer.validateViewCallSucceeds: simulate relayCall from the worker;
a revert or a paymasterAccepted = false verdict is rejected. -/
def validateViewCallSucceeds (env : AdmissionEnv) (acceptanceBudget maxPossibleGas : Nat) :
    Except String Unit :=
  match env.viewRelayCall acceptanceBudget maxPossibleGas with
  | Except.error _ => Except.error ("relayCall reverted in server")
  | Except.ok ret =>
    if ¬ ret.paymasterAccepted then
      Except.error ("Paymaster rejected in server")
    else Except.ok ()

/-- The externally visible actions of the admission pipeline after the
validations pass: the sendTransaction call, the post-send replenish pass, and
the alerted-state throttling sleep. -/
inductive AdmissionAction where
  | sendRelayCall (details : SendTransactionDetails)
  | replenish (workerIndex : Nat) (currentBlock : Nat)
  | alertedSleep
deriving Repr, DecidableEq

/-- True exactly on the sendRelayCall action. -/
def AdmissionAction.isSend : AdmissionAction → Bool
  | AdmissionAction.sendRelayCall _ => true
  | _ => false

/-- RelayServer.createRelayTransaction: the readiness gate followed by the
ordered validations; only when all pass is the relayCall transaction sent,
the replenish pass triggered and, in the alerted state, the throttling sleep
performed.  Returns the performed actions and the result. -/
def createRelayTransaction (cfg : ServerConfigParams) (srv : ServerView)
    (st : RelayServerState) (env : AdmissionEnv) (req : RelayTransactionRequest) :
    List AdmissionAction × Except String String :=
  if ¬ isReady cfg st then ([], Except.error ("relay not ready"))
  else match validateInputTypes env with
  | Except.error e => ([], Except.error e)
  | Except.ok _ =>
  match validateInput st.relayHubAddress srv.workerAddress st.gasPrice req with
  | Except.error e => ([], Except.error e)
  | Except.ok _ =>
  match validateFees cfg st.trustedPaymastersGasLimits req with
  | Except.error e => ([], Except.error e)
  | Except.ok _ =>
  match validateMaxNonce env req.metadata.relayMaxNonce with
  | Except.error e => ([], Except.error e)
  | Except.ok _ =>
  match validatePaymasterGasLimits cfg st.trustedPaymastersGasLimits env req with
  | Except.error e => ([], Except.error e)
  | Except.ok (acceptanceBudget, maxPossibleGas) =>
  match validateViewCallSucceeds env acceptanceBudget maxPossibleGas with
  | Except.error e => ([], Except.error e)
  | Except.ok _ =>
    let currentBlock := env.currentBlock
    let details : SendTransactionDetails :=
      { signer := srv.workerAddress
      , serverAction := ServerAction.RELAY_CALL
      , destination := req.metadata.relayHubAddress
      , value := none
      , gasLimit := maxPossibleGas
      , gasPrice := some req.relayRequest.relayData.gasPrice
      , creationBlockNumber := currentBlock }
    let actions :=
      [AdmissionAction.sendRelayCall details, AdmissionAction.replenish 0 currentBlock] ++
        (if st.alerted then [AdmissionAction.alertedSleep] else [])
    (actions, Except.ok env.signedTx)

/-- The oracle reads of init: the per-address getGasLimits fetches for the
configured trusted paymasters, the resolved hub address, the code found at
it, the chain and network ids, and the latest block. -/
structure InitEnv where
  trustedFetch : String → Except String GasLimits
  hubAddress : String
  codeAtHub : String
  chainId : Nat
  networkId : Nat
  latestBlockNumber : Nat

/-- The loop body of initTrustedPaymasters: each configured address is
resolved in order and its gas limits stored under the lower-cased address;
the first failing address aborts the loop with the already-stored entries
kept. -/
def initTrustedLoop (fetch : String → Except String GasLimits) :
    List String → List (String × GasLimits) →
    List (String × GasLimits) × Except String Unit
  | [], acc => (acc, Except.ok ())
  | p :: rest, acc =>
    match fetch p with
    | Except.error _ =>
      (acc, Except.error ("not a valid paymaster address in trustedPaymasters list"))
    | Except.ok gasLimits =>
      initTrustedLoop fetch rest (acc ++ [(toLowerCase p, gasLimits)])

/-- RelayServer.init: refuse a second call, clear and refill the trusted
paymaster map, resolve the hub contract and require deployed code at its
address, resolve chain and network ids (refusing real-network ids in
devMode), and only then mark the server initialized.  The fatal paths
(process.exit) are modelled as errors.  External collaborator setup
(TransactionManager, RegistrationManager) has no effect on the modelled
state. -/
def init (cfg : ServerConfigParams) (env : InitEnv) (st : RelayServerState) :
    RelayServerState × Except String Unit :=
  if st.initialized then (st, Except.error ("_init was already called"))
  else
    let st1 := { st with trustedPaymastersGasLimits := [] }
    let (m, r) := initTrustedLoop env.trustedFetch cfg.trustedPaymasters []
    let st2 := { st1 with trustedPaymastersGasLimits := m }
    match r with
    | Except.error e => (st2, Except.error e)
    | Except.ok _ =>
      let st3 := { st2 with relayHubAddress := env.hubAddress }
      if env.codeAtHub.length < 10 then
        (st3, Except.error ("FATAL: No RelayHub deployed at address"))
      else
        let st4 := { st3 with chainId := env.chainId, networkId := env.networkId }
        if cfg.devMode ∧ (env.chainId < 1000 ∨ env.networkId < 1000) then
          (st4, Except.error ("Do not use a real network chainId or networkId while in devMode"))
        else
          ({ st4 with initialized := true }, Except.ok ())

/-- Modelled from the spec: common/Utils.getLatestEventData is not among the
provided sources; it selects the latest of a list of events, which the spec
reads as the relay event with the greatest block number. -/
def getLatestEventData (events : List EventData) : Option EventData :=
  events.foldl
    (fun acc e =>
      match acc with
      | none => some e
      | some a => if e.blockNumber > a.blockNumber then some e else some a)
    none

/-- The oracle reads of the registration hint: the two isActionPending
queries and the result of the full-history _queryLatestActiveEvent. -/
structure ShouldRegisterEnv where
  isRelayCallPending : Bool
  isRegisterServerPending : Bool
  queriedLatestEvent : Option EventData
deriving Repr, DecidableEq

/-- RelayServer.getLatestTxBlockNumber: remember the latest event of the
current scan, fall back to a full-history query when nothing was ever seen,
and answer the remembered event's block number or minus one. -/
def getLatestTxBlockNumber (env : ShouldRegisterEnv) (eventsSinceLastScan : List EventData)
    (st : RelayServerState) : Int × RelayServerState :=
  let st1 :=
    match getLatestEventData eventsSinceLastScan with
    | some e => { st with lastMinedActiveTransaction := some e }
    | none => st
  let st2 :=
    match st1.lastMinedActiveTransaction with
    | none => { st1 with lastMinedActiveTransaction := env.queriedLatestEvent }
    | some _ => st1
  (match st2.lastMinedActiveTransaction with
   | some e => (e.blockNumber : Int)
   | none => -1, st2)

/-- RelayServer.shouldRegisterAgain: false when registrationBlockRate is zero
or a RELAY_CALL or REGISTER_SERVER transaction is pending; otherwise true
exactly when the latest activity is at least registrationBlockRate blocks
old. -/
def shouldRegisterAgain (cfg : ServerConfigParams) (env : ShouldRegisterEnv)
    (hubEventsSinceLastScan : List EventData) (currentBlock : Nat)
    (st : RelayServerState) : Bool × RelayServerState :=
  let isPendingActivityTransaction := env.isRelayCallPending || env.isRegisterServerPending
  if cfg.registrationBlockRate = 0 || isPendingActivityTransaction then
    (false, st)
  else
    let (latestTxBlockNumber, st1) := getLatestTxBlockNumber env hubEventsSinceLastScan st
    (decide ((currentBlock : Int) - latestTxBlockNumber ≥ (cfg.registrationBlockRate : Int)), st1)

/-- RelayServer.handlePastHubEvents: each TransactionRejectedByPaymaster
event of the scan enters the alerted state with the tick's block number. -/
def handlePastHubEvents (st : RelayServerState) (blockNumber : Nat)
    (hubEventsSinceLastScan : List EventData) : RelayServerState :=
  hubEventsSinceLastScan.foldl
    (fun s e =>
      if e.event = TransactionRejectedByPaymaster then
        { s with alerted := true, alertedBlock := blockNumber }
      else s)
    st

/-- The oracle reads of one handleChanges pass: the event scan, the
registration hint's oracle reads, the transactions the RegistrationManager
submitted, the isRegistered verdict, the replenish pass's oracle reads and
the worker balance read after it. -/
structure HandleChangesEnv where
  hubEventsSinceLastScan : List EventData
  regEnv : ShouldRegisterEnv
  registrationTxHashes : List String
  isRegistered : Bool
  replenishEnv : ReplenishEnv
  workerBalance : Int
deriving Repr, DecidableEq

/-- RelayServer.handleChanges: feed the scanned events and the registration
hint to the RegistrationManager, advance lastScannedBlock, de-ready and stop
when not registered, handle the scanned hub events, replenish, de-ready and
stop when the worker balance is below workerMinBalance, otherwise become
ready and leave the alerted state once alertedBlock + alertedBlockDelay is
strictly below the current block. -/
def handleChanges (cfg : ServerConfigParams) (srv : ServerView)
    (env : HandleChangesEnv) (blockNumber : Nat) (st : RelayServerState) :
    RelayServerState × List String :=
  let hubEventsSinceLastScan := env.hubEventsSinceLastScan
  let (_, st1) := shouldRegisterAgain cfg env.regEnv hubEventsSinceLastScan blockNumber st
  let transactionHashes := env.registrationTxHashes
  let st2 := { st1 with lastScannedBlock := blockNumber }
  if ¬ env.isRegistered then (setReadyState st2 false, transactionHashes)
  else
    let st3 := handlePastHubEvents st2 blockNumber hubEventsSinceLastScan
    let rep := replenishServer cfg srv st3.relayHubAddress env.replenishEnv blockNumber
    let transactionHashes := transactionHashes ++ rep.hashes
    if env.workerBalance < cfg.workerMinBalance then
      (setReadyState st3 false, transactionHashes)
    else
      let st4 := setReadyState st3 true
      if st4.alerted ∧ st4.alertedBlock + cfg.alertedBlockDelay < blockNumber then
        ({ st4 with alerted := false }, transactionHashes)
      else (st4, transactionHashes)

/-- RelayServer.shouldRefreshState: refresh when refreshStateTimeoutBlocks
blocks have passed since the last refresh or the server is not ready. -/
def shouldRefreshState (cfg : ServerConfigParams) (currentBlock : Nat)
    (st : RelayServerState) : Bool :=
  decide ((currentBlock : Int) - (st.lastRefreshBlock : Int) ≥
    (cfg.refreshStateTimeoutBlocks : Int)) || ! isReady cfg st

/-- The oracle reads of one worker pass: the init oracle (for a first,
uninitialized pass), the computed gas price floor(networkGasPrice times
gasPriceFactor), the manager balance verdict after refreshBalance, and the
handleChanges oracle. -/
structure WorkerEnv where
  initEnv : InitEnv
  computedGasPrice : Nat
  managerBalanceSatisfied : Bool
  hcEnv : HandleChangesEnv

/-- RelayServer.worker: initialize on the first pass, refuse a block not past
lastScannedBlock, skip the pass when no state refresh is due, refresh the gas
price (a zero gas price is an error), de-ready and stop when the manager
balance is unsatisfied, otherwise run handleChanges.  Returns the new state
and the submitted transaction hashes or the thrown error. -/
def worker (cfg : ServerConfigParams) (srv : ServerView) (env : WorkerEnv)
    (blockNumber : Nat) (st : RelayServerState) :
    RelayServerState × Except String (List String) :=
  let (st1, initRes) :=
    if ¬ st.initialized then init cfg env.initEnv st else (st, Except.ok ())
  match initRes with
  | Except.error e => (st1, Except.error e)
  | Except.ok _ =>
    if blockNumber ≤ st1.lastScannedBlock then
      (st1, Except.error ("Attempt to scan older block, aborting"))
    else if ¬ shouldRefreshState cfg blockNumber st1 then
      (st1, Except.ok [])
    else
      let st2 := { st1 with lastRefreshBlock := blockNumber }
      let st3 := { st2 with gasPrice := env.computedGasPrice }
      if env.computedGasPrice = 0 then
        (st3, Except.error ("Could not get gasPrice from node"))
      else if ¬ env.managerBalanceSatisfied then
        (setReadyState st3 false, Except.ok [])
      else
        let (st4, txs) := handleChanges cfg srv env.hcEnv blockNumber st3
        (st4, Except.ok txs)

/-- The oracle reads of one intervalHandler invocation: whether the armed
readyTimeout expired before the tick finished, the getBlock result, whether
the worker semaphore was already taken, and the worker pass outcome. -/
structure IntervalEnv where
  timerExpires : Bool
  getBlock : Except String Nat
  semaphoreBusy : Bool
  workerOutcome : Except String (List String)

/-- The atomic steps one intervalHandler invocation performs on the readiness
counter and the worker, in order. -/
inductive TickStep where
  | timeoutReset
  | workerInvoked (blockNumber : Nat)
  | successIncrement
  | errorReset
deriving Repr, DecidableEq

/-- The effect of one TickStep on the server state: the readyTimeout watchdog
and the error handler zero lastSuccessfulRounds, a completed worker pass
increments it. -/
def applyTickStep (st : RelayServerState) : TickStep → RelayServerState
  | TickStep.timeoutReset => { st with lastSuccessfulRounds := 0 }
  | TickStep.errorReset => { st with lastSuccessfulRounds := 0 }
  | TickStep.successIncrement => { st with lastSuccessfulRounds := st.lastSuccessfulRounds + 1 }
  | TickStep.workerInvoked _ => st

/-- RelayServer.intervalHandler as its sequence of TickSteps: the readyTimeout
watchdog is armed only outside devMode and zeroes the round counter on
expiry; the latest block is observed and the worker semaphore invoked only
past lastScannedBlock; a worker error (or a getBlock error) zeroes the round
counter, a completed worker pass increments it; a busy semaphore skips the
block. -/
def intervalHandlerSteps (cfg : ServerConfigParams) (env : IntervalEnv)
    (lastScannedBlock : Nat) : List TickStep :=
  (if ¬ cfg.devMode ∧ env.timerExpires then [TickStep.timeoutReset] else []) ++
    (match env.getBlock with
     | Except.error _ => [TickStep.errorReset]
     | Except.ok n =>
       if n > lastScannedBlock then
         if env.semaphoreBusy then []
         else
           TickStep.workerInvoked n ::
             (match env.workerOutcome with
              | Except.ok _ => [TickStep.successIncrement]
              | Except.error _ => [TickStep.errorReset])
       else [])

/-- The primitive updates of the readiness state that appear in the source: a
completed worker pass (lastSuccessfulRounds increment), a watchdog or error
reset (lastSuccessfulRounds zeroed), and a setReadyState call. -/
inductive ReadyEvent where
  | tickSuccess
  | roundsReset
  | setReady (b : Bool)
deriving Repr, DecidableEq

/-- The effect of one ReadyEvent on the server state. -/
def applyReadyEvent (st : RelayServerState) : ReadyEvent → RelayServerState
  | ReadyEvent.tickSuccess => { st with lastSuccessfulRounds := st.lastSuccessfulRounds + 1 }
  | ReadyEvent.roundsReset => { st with lastSuccessfulRounds := 0 }
  | ReadyEvent.setReady b => setReadyState st b

/-- An execution of readiness updates from a starting state. -/
def runReadyEvents (st : RelayServerState) (tr : List ReadyEvent) : RelayServerState :=
  tr.foldl applyReadyEvent st

/-- The number of successful reconciliation rounds counted in a trace. -/
def countSuccesses (tr : List ReadyEvent) : Nat :=
  tr.countP (fun e => e = ReadyEvent.tickSuccess)

/-! Concrete fixtures used by witnesses and counterexamples. -/

/-- A concrete server configuration. -/
def cfgBase : ServerConfigParams :=
  { devMode := false, successfulRoundsForReady := 3, pctRelayFee := 10, baseRelayFee := 100
  , maxAcceptanceBudget := 200000, managerMinBalance := 100, managerTargetBalance := 1000
  , minHubWithdrawalBalance := 500, workerMinBalance := 100, workerTargetBalance := 300
  , registrationBlockRate := 10, refreshStateTimeoutBlocks := 5, alertedBlockDelay := 1
  , readyTimeout := 60000, minAlertedDelayMS := 0, maxAlertedDelayMS := 0
  , trustedPaymasters := [] }

/-- The configuration with registrationBlockRate zero. -/
def cfgZeroRate : ServerConfigParams := { cfgBase with registrationBlockRate := 0 }

/-- The configuration with devMode on. -/
def cfgDev : ServerConfigParams := { cfgBase with devMode := true }

/-- Concrete server addresses. -/
def srvW : ServerView := { managerAddress := "0xmanager", workerAddress := "0xworker" }

/-- A concrete initialized, ready server state past block 5. -/
def stInitedW : RelayServerState :=
  { initialServerState with
    initialized := true, lastScannedBlock := 5, ready := true,
    lastSuccessfulRounds := 10, gasPrice := 1, relayHubAddress := "0xhub" }

/-- The initialized state in the alerted state since block 0. -/
def stAlertedW : RelayServerState := { stInitedW with alerted := true, alertedBlock := 0 }

/-- A concrete registration-hint environment with nothing pending. -/
def regEnvW : ShouldRegisterEnv :=
  { isRelayCallPending := false, isRegisterServerPending := false, queriedLatestEvent := none }

/-- A concrete replenish environment with a satisfied worker. -/
def repEnvW : ReplenishEnv :=
  { managerEthBalance1 := 10000, managerHubBalance := 0, workerBalance := 1000
  , isWithdrawalPending := false, withdrawGasLimit := 50000, managerEthBalance2 := 10000
  , isReplenishPendingForWorker := false, withdrawTxHash := "0xw", transferTxHash := "0xt" }

/-- The replenish environment with the worker balance below workerMinBalance. -/
def repEnvLow : ReplenishEnv := { repEnvW with workerBalance := 50 }

/-- Concrete paymaster gas limits. -/
def glW : GasLimits :=
  { acceptanceBudget := 100, preRelayedCallGasLimit := 200, postRelayedCallGasLimit := 300 }

/-- A concrete well-formed relay transaction request. -/
def reqW : RelayTransactionRequest :=
  { relayRequest :=
    { request := { gas := 1000 }
    , relayData :=
      { gasPrice := 5, pctRelayFee := 10, baseRelayFee := 100
      , relayWorker := "0xworker", paymaster := "0xpm" } }
  , metadata := { relayHubAddress := "0xhub", relayMaxNonce := 3 } }

/-- The request with a hub address different from the server's. -/
def reqWrongHub : RelayTransactionRequest :=
  { reqW with metadata := { relayHubAddress := "0xother", relayMaxNonce := 3 } }

/-- The request with a pctRelayFee below the configured minimum. -/
def reqLowFee : RelayTransactionRequest :=
  { reqW with relayRequest :=
    { reqW.relayRequest with relayData :=
      { reqW.relayRequest.relayData with pctRelayFee := 0 } } }

/-- A concrete admission environment on which every oracle check passes. -/
def admEnvW : AdmissionEnv :=
  { shapeOk := true, pollNonce := 0
  , getGasLimits := Except.ok glW, hubOverhead := 0
  , calculateCharge := fun _ => 0, paymasterBalance := 1000
  , viewRelayCall := fun _ _ => Except.ok { paymasterAccepted := true, returnValue := "" }
  , currentBlock := 7, signedTx := "0xsigned" }

/-- A concrete init environment on which init succeeds. -/
def initEnvW : InitEnv :=
  { trustedFetch := fun _ => Except.error ("no such paymaster")
  , hubAddress := "0xhub", codeAtHub := "0x1234567890"
  , chainId := 1, networkId := 1, latestBlockNumber := 1 }

/-- A concrete handleChanges environment: registered, nothing scanned, worker
funded. -/
def hcEnvW : HandleChangesEnv :=
  { hubEventsSinceLastScan := [], regEnv := regEnvW, registrationTxHashes := []
  , isRegistered := true, replenishEnv := repEnvW, workerBalance := 1000 }

/-- The handleChanges environment of a tick on which the manager is not
registered. -/
def hcEnvNotReg : HandleChangesEnv := { hcEnvW with isRegistered := false }

/-- The handleChanges environment of a tick that scans a
TransactionRejectedByPaymaster event. -/
def hcEnvRejected : HandleChangesEnv :=
  { hcEnvW with hubEventsSinceLastScan :=
    [{ event := TransactionRejectedByPaymaster, blockNumber := 9 }] }

/-- A concrete worker environment for a full successful pass. -/
def wenvW : WorkerEnv :=
  { initEnv := initEnvW, computedGasPrice := 1, managerBalanceSatisfied := true
  , hcEnv := hcEnvW }

/-- A concrete intervalHandler environment observing block 5, timer quiet. -/
def ienvW : IntervalEnv :=
  { timerExpires := false, getBlock := Except.ok 5, semaphoreBusy := false
  , workerOutcome := Except.ok [] }

/-- The intervalHandler environment with the readyTimeout expired. -/
def ienvExpired : IntervalEnv := { ienvW with timerExpires := true }

/-! Theorems. -/

/-- C4: validateInput throws exactly when the request's relayHubAddress
differs from the server's hub address, the request's relayWorker differs
case-insensitively from the server's worker address, or the request's gas
price is strictly below the server's current gasPrice. -/
theorem validateInput_error_iff (hubAddress workerAddress : String) (gasPrice : Nat)
    (req : RelayTransactionRequest) :
    isErr (validateInput hubAddress workerAddress gasPrice req) = true ↔
      (req.metadata.relayHubAddress ≠ hubAddress ∨
       toLowerCase req.relayRequest.relayData.relayWorker ≠ toLowerCase workerAddress ∨
       req.relayRequest.relayData.gasPrice < gasPrice) := by
  by_cases h1 : req.metadata.relayHubAddress = hubAddress <;>
    by_cases h2 : toLowerCase req.relayRequest.relayData.relayWorker = toLowerCase workerAddress <;>
      by_cases h3 : req.relayRequest.relayData.gasPrice < gasPrice <;>
        simp [validateInput, isErr, h1, h2, h3]

/-- C4 witness: a request whose hub address differs from the server's is
rejected by validateInput. -/
theorem validateInput_error_iff_witness :
    isErr (validateInput ("0xhub") ("0xworker") 1 reqWrongHub) = true :=
  (validateInput_error_iff ("0xhub") ("0xworker") 1 reqWrongHub).mpr
    (Or.inl (by decide))

/-- C8: validateFees returns normally for a trusted paymaster without
checking fees, and for an untrusted paymaster throws exactly when the
request's pctRelayFee is below config.pctRelayFee or its baseRelayFee is
below config.baseRelayFee. -/
theorem validateFees_spec (cfg : ServerConfigParams) (m : List (String × GasLimits))
    (req : RelayTransactionRequest) :
    (isTrustedPaymaster m req.relayRequest.relayData.paymaster = true →
      validateFees cfg m req = Except.ok ()) ∧
    (isTrustedPaymaster m req.relayRequest.relayData.paymaster = false →
      (isErr (validateFees cfg m req) = true ↔
        (req.relayRequest.relayData.pctRelayFee < cfg.pctRelayFee ∨
         req.relayRequest.relayData.baseRelayFee < cfg.baseRelayFee))) := by
  constructor
  · intro h
    simp [validateFees, h]
  · intro h
    by_cases h1 : req.relayRequest.relayData.pctRelayFee < cfg.pctRelayFee <;>
      by_cases h2 : req.relayRequest.relayData.baseRelayFee < cfg.baseRelayFee <;>
        simp [validateFees, isErr, h, h1, h2]

/-- C8 witness: a trusted paymaster passes validateFees with zero fees
offered, and an untrusted paymaster offering a pctRelayFee below the
configured minimum is rejected. -/
theorem validateFees_spec_witness :
    (isTrustedPaymaster [(("0xpm"), glW)] reqLowFee.relayRequest.relayData.paymaster = true ∧
      validateFees cfgBase [(("0xpm"), glW)] reqLowFee = Except.ok ()) ∧
    (isTrustedPaymaster [] reqLowFee.relayRequest.relayData.paymaster = false ∧
      isErr (validateFees cfgBase [] reqLowFee) = true) :=
  ⟨⟨by decide, (validateFees_spec cfgBase [(("0xpm"), glW)] reqLowFee).1 (by decide)⟩,
   ⟨by decide, ((validateFees_spec cfgBase [] reqLowFee).2 (by decide)).mpr
      (Or.inl (by decide))⟩⟩

/-- C3: on a replenishment pass with the worker balance below
workerMinBalance, a pending VALUE_TRANSFER for the worker suppresses any new
transfer; otherwise, with refill = workerTargetBalance minus workerBalance, a
VALUE_TRANSFER of value refill from manager to worker is submitted exactly
when refill is strictly below managerEthBalance minus managerMinBalance, and
otherwise the fundingNeeded event is emitted, an error is logged, and no
transfer is submitted. -/
theorem replenishServer_worker_refill (cfg : ServerConfigParams) (srv : ServerView)
    (hubAddress : String) (env : ReplenishEnv) (currentBlock : Nat)
    (hlow : env.workerBalance < cfg.workerMinBalance) :
    (env.isReplenishPendingForWorker = true →
      ∀ d ∈ (replenishServer cfg srv hubAddress env currentBlock).sends,
        d.serverAction ≠ ServerAction.VALUE_TRANSFER) ∧
    (env.isReplenishPendingForWorker = false →
      ((cfg.workerTargetBalance - env.workerBalance <
          env.managerEthBalance2 - cfg.managerMinBalance) ↔
        workerRefillDetails srv (cfg.workerTargetBalance - env.workerBalance) currentBlock ∈
          (replenishServer cfg srv hubAddress env currentBlock).sends) ∧
      (¬ (cfg.workerTargetBalance - env.workerBalance <
          env.managerEthBalance2 - cfg.managerMinBalance) →
        (replenishServer cfg srv hubAddress env currentBlock).fundingNeeded = true ∧
        (replenishServer cfg srv hubAddress env currentBlock).errorLogged = true ∧
        ∀ d ∈ (replenishServer cfg srv hubAddress env currentBlock).sends,
          d.serverAction ≠ ServerAction.VALUE_TRANSFER)) := by
  have hns : ¬ (env.workerBalance ≥ cfg.workerMinBalance) := not_le.mpr hlow
  have h1 : ¬ (env.managerEthBalance1 ≥ cfg.managerTargetBalance ∧
      env.workerBalance ≥ cfg.workerMinBalance) := fun h => hns h.2
  refine ⟨?_, ?_⟩
  · intro hp d hd
    have h2 : ¬ (¬ (env.workerBalance ≥ cfg.workerMinBalance) ∧
        ¬ (env.isReplenishPendingForWorker = true)) := fun h => h.2 hp
    simp only [replenishServer, if_neg h1, if_neg h2] at hd
    split at hd
    · simp only [List.mem_singleton] at hd
      subst hd
      simp [managerWithdrawDetails]
    · simp at hd
  · intro hp
    have h2 : (¬ (env.workerBalance ≥ cfg.workerMinBalance) ∧
        ¬ (env.isReplenishPendingForWorker = true)) := ⟨hns, by simp [hp]⟩
    by_cases hr : cfg.workerTargetBalance - env.workerBalance <
        env.managerEthBalance2 - cfg.managerMinBalance
    · refine ⟨⟨fun _ => ?_, fun _ => hr⟩, fun hcon => absurd hr hcon⟩
      simp only [replenishServer, if_neg h1, if_pos h2, if_pos hr]
      exact List.mem_append_right _ (List.mem_singleton_self _)
    · refine ⟨⟨fun hc => absurd hc hr, fun hmem => ?_⟩, fun _ => ?_⟩
      · exfalso
        simp only [replenishServer, if_neg h1, if_pos h2, if_neg hr] at hmem
        split at hmem
        · simp only [List.mem_singleton] at hmem
          have := congrArg SendTransactionDetails.serverAction hmem
          simp [workerRefillDetails, managerWithdrawDetails] at this
        · simp at hmem
      · refine ⟨?_, ?_, ?_⟩
        · simp only [replenishServer, if_neg h1, if_pos h2, if_neg hr]
        · simp only [replenishServer, if_neg h1, if_pos h2, if_neg hr]
        · intro d hd
          simp only [replenishServer, if_neg h1, if_pos h2, if_neg hr] at hd
          split at hd
          · simp only [List.mem_singleton] at hd
            subst hd
            simp [managerWithdrawDetails]
          · simp at hd

/-- C3 witness: with the worker at 50 below the minimum 100, no transfer
pending and a manager balance of 10000, the pass submits the VALUE_TRANSFER
of the refill 250 from manager to worker. -/
theorem replenishServer_worker_refill_witness :
    repEnvLow.workerBalance < cfgBase.workerMinBalance ∧
    repEnvLow.isReplenishPendingForWorker = false ∧
    workerRefillDetails srvW (cfgBase.workerTargetBalance - repEnvLow.workerBalance) 8 ∈
      (replenishServer cfgBase srvW ("0xhub") repEnvLow 8).sends :=
  ⟨by decide, by decide,
    (((replenishServer_worker_refill cfgBase srvW ("0xhub") repEnvLow 8
        (by decide)).2 (by decide)).1).mp (by decide)⟩

/-- C1: for every relay transaction request, when isReady is false or any of
the ordered validations (input types, hub address, worker address, gas
price, fees, max nonce, paymaster gas limits, view call) fails,
createRelayTransaction throws and performs no action at all; in particular
it never calls transactionManager.sendTransaction, so no transaction is
signed, broadcast, or written to the store on a validation-failure path. -/
theorem createRelayTransaction_failure_no_send (cfg : ServerConfigParams)
    (srv : ServerView) (st : RelayServerState) (env : AdmissionEnv)
    (req : RelayTransactionRequest) :
    (isErr (createRelayTransaction cfg srv st env req).2 = true →
      (createRelayTransaction cfg srv st env req).1 = []) ∧
    (isReady cfg st = false →
      isErr (createRelayTransaction cfg srv st env req).2 = true) ∧
    (isErr (validateInputTypes env) = true →
      isErr (createRelayTransaction cfg srv st env req).2 = true) ∧
    (isErr (validateInput st.relayHubAddress srv.workerAddress st.gasPrice req) = true →
      isErr (createRelayTransaction cfg srv st env req).2 = true) ∧
    (isErr (validateFees cfg st.trustedPaymastersGasLimits req) = true →
      isErr (createRelayTransaction cfg srv st env req).2 = true) ∧
    (isErr (validateMaxNonce env req.metadata.relayMaxNonce) = true →
      isErr (createRelayTransaction cfg srv st env req).2 = true) ∧
    (isErr (validatePaymasterGasLimits cfg st.trustedPaymastersGasLimits env req) = true →
      isErr (createRelayTransaction cfg srv st env req).2 = true) ∧
    (∀ acceptanceBudget maxPossibleGas,
      validatePaymasterGasLimits cfg st.trustedPaymastersGasLimits env req =
        Except.ok (acceptanceBudget, maxPossibleGas) →
      isErr (validateViewCallSucceeds env acceptanceBudget maxPossibleGas) = true →
      isErr (createRelayTransaction cfg srv st env req).2 = true) := by
  refine ⟨?_, ?_, ?_, ?_, ?_, ?_, ?_, ?_⟩
  · intro h
    simp only [createRelayTransaction] at *
    repeat' split at h
    all_goals simp_all [isErr]
  · intro h
    simp only [createRelayTransaction, h]
    simp [isErr]
  · intro h
    simp only [createRelayTransaction]
    repeat' split
    all_goals simp_all [isErr]
  · intro h
    simp only [createRelayTransaction]
    repeat' split
    all_goals simp_all [isErr]
  · intro h
    simp only [createRelayTransaction]
    repeat' split
    all_goals simp_all [isErr]
  · intro h
    simp only [createRelayTransaction]
    repeat' split
    all_goals simp_all [isErr]
  · intro h
    simp only [createRelayTransaction]
    repeat' split
    all_goals simp_all [isErr]
  · intro acceptanceBudget maxPossibleGas hok h
    simp only [createRelayTransaction]
    repeat' split
    all_goals simp_all [isErr]

/-- C1 witness: on the freshly constructed server the readiness gate is
closed, and createRelayTransaction rejects the request without performing
any action. -/
theorem createRelayTransaction_failure_no_send_witness :
    isReady cfgBase initialServerState = false ∧
    isErr (createRelayTransaction cfgBase srvW initialServerState admEnvW reqW).2 = true ∧
    (createRelayTransaction cfgBase srvW initialServerState admEnvW reqW).1 = [] := by
  have h : isReady cfgBase initialServerState = false := by decide
  have he := (createRelayTransaction_failure_no_send cfgBase srvW initialServerState
    admEnvW reqW).2.1 h
  exact ⟨h, he,
    (createRelayTransaction_failure_no_send cfgBase srvW initialServerState admEnvW reqW).1 he⟩

/-- In a trace without resets, the round counter grows by exactly the number
of successful rounds. -/
theorem runReadyEvents_rounds (tr : List ReadyEvent) (st0 : RelayServerState)
    (h : ReadyEvent.roundsReset ∉ tr) :
    (runReadyEvents st0 tr).lastSuccessfulRounds =
      st0.lastSuccessfulRounds + countSuccesses tr := by
  induction tr generalizing st0 with
  | nil => simp [runReadyEvents, countSuccesses]
  | cons e rest ih =>
    have hrest : ReadyEvent.roundsReset ∉ rest := fun hm => h (List.mem_cons_of_mem e hm)
    have he : e ≠ ReadyEvent.roundsReset := fun hv => h (hv ▸ List.mem_cons_self e rest)
    cases e with
    | tickSuccess =>
      simp only [runReadyEvents, List.foldl_cons, applyReadyEvent] at *
      rw [ih _ hrest]
      simp [countSuccesses, List.countP_cons]
      omega
    | roundsReset => exact absurd rfl he
    | setReady b =>
      simp only [runReadyEvents, List.foldl_cons, applyReadyEvent, setReadyState] at *
      rw [ih _ hrest]
      simp [countSuccesses, List.countP_cons]

/-- C2 counterexample: immediately after construction lastSuccessfulRounds is
MAX_SAFE_INTEGER, so a single setReady(true) with zero successful rounds
counted already makes isReady() return true, although
successfulRoundsForReady is 3. -/
theorem isReady_hysteresis_counterexample :
    isReady cfgBase (runReadyEvents initialServerState [ReadyEvent.setReady true]) = true ∧
    countSuccesses [ReadyEvent.setReady true] = 0 ∧
    0 < cfgBase.successfulRoundsForReady := by decide

/-- C2 amended: isReady() returns ready AND lastSuccessfulRounds at least
successfulRoundsForReady at all times; but because lastSuccessfulRounds is
initialized to MAX_SAFE_INTEGER rather than 0, setReady(true) takes effect
immediately after construction; only once lastSuccessfulRounds has been
reset to 0 (watchdog expiry or tick error) does setReady(true) take effect
only after at least successfulRoundsForReady consecutive successful rounds
have been counted. -/
theorem isReady_hysteresis_amended (cfg : ServerConfigParams) :
    (∀ st : RelayServerState,
      isReady cfg st =
        (st.ready && decide (cfg.successfulRoundsForReady ≤ st.lastSuccessfulRounds))) ∧
    (∀ (st0 : RelayServerState) (tr : List ReadyEvent),
      st0.lastSuccessfulRounds = 0 → ReadyEvent.roundsReset ∉ tr →
      isReady cfg (runReadyEvents st0 tr) = true →
      cfg.successfulRoundsForReady ≤ countSuccesses tr) := by
  constructor
  · intro st
    by_cases h : st.lastSuccessfulRounds < cfg.successfulRoundsForReady
    · simp [isReady, h, Nat.not_le.mpr h]
    · simp [isReady, h, Nat.not_lt.mp h]
  · intro st0 tr h0 hnr hready
    have hrounds := runReadyEvents_rounds tr st0 hnr
    rw [h0, Nat.zero_add] at hrounds
    by_cases h : (runReadyEvents st0 tr).lastSuccessfulRounds < cfg.successfulRoundsForReady
    · rw [isReady, if_pos h] at hready
      exact absurd hready (by simp)
    · rw [← hrounds]
      exact Nat.not_lt.mp h

/-- C2 witness for the amended claim: from a state whose round counter was
reset to 0, three successful rounds followed by setReady(true) make isReady
true, and the theorem yields that at least the 3 configured rounds were
counted. -/
theorem isReady_hysteresis_amended_witness :
    ({ initialServerState with lastSuccessfulRounds := 0 } :
        RelayServerState).lastSuccessfulRounds = 0 ∧
    cfgBase.successfulRoundsForReady ≤
      countSuccesses [ReadyEvent.tickSuccess, ReadyEvent.tickSuccess,
        ReadyEvent.tickSuccess, ReadyEvent.setReady true] :=
  ⟨rfl,
   (isReady_hysteresis_amended cfgBase).2
     { initialServerState with lastSuccessfulRounds := 0 }
     [ReadyEvent.tickSuccess, ReadyEvent.tickSuccess,
       ReadyEvent.tickSuccess, ReadyEvent.setReady true]
     rfl (by decide) (by decide)⟩

/-- init never changes lastScannedBlock. -/
theorem init_lastScannedBlock (cfg : ServerConfigParams) (env : InitEnv)
    (st : RelayServerState) :
    ((init cfg env st).1).lastScannedBlock = st.lastScannedBlock := by
  rcases hl : initTrustedLoop env.trustedFetch cfg.trustedPaymasters [] with ⟨m, r⟩
  simp only [init, hl]
  repeat' split
  all_goals rfl

/-- C5: a tick whose observed latest block number does not exceed
lastScannedBlock returns without invoking the worker, and a worker
invocation for a block number not exceeding lastScannedBlock throws and so
submits no transactions (for an already-initialized server, with the exact
abort error). -/
theorem tick_same_block_no_submissions (cfg : ServerConfigParams) (srv : ServerView)
    (wenv : WorkerEnv) (env : IntervalEnv) (n : Nat) (lastScannedBlock : Nat)
    (st : RelayServerState) :
    (env.getBlock = Except.ok n → n ≤ lastScannedBlock →
      ∀ b, TickStep.workerInvoked b ∉ intervalHandlerSteps cfg env lastScannedBlock) ∧
    (n ≤ st.lastScannedBlock →
      isErr (worker cfg srv wenv n st).2 = true) ∧
    (st.initialized = true → n ≤ st.lastScannedBlock →
      (worker cfg srv wenv n st).2 = Except.error ("Attempt to scan older block, aborting")) := by
  refine ⟨?_, ?_, ?_⟩
  · intro hb hle b
    simp only [intervalHandlerSteps, hb, Nat.not_lt.mpr hle, if_false]
    intro hmem
    rcases List.mem_append.mp hmem with h | h
    · revert h
      split <;> simp
    · simp at h
  · intro hle
    by_cases hi : st.initialized
    · simp [worker, hi, hle, isErr]
    · rcases hinit : init cfg wenv.initEnv st with ⟨st1, r⟩
      have hls : st1.lastScannedBlock = st.lastScannedBlock := by
        have := init_lastScannedBlock cfg wenv.initEnv st
        rw [hinit] at this
        exact this
      cases r with
      | error e =>
        simp [worker, hi, hinit, isErr]
      | ok u =>
        have hle1 : n ≤ st1.lastScannedBlock := hls ▸ hle
        simp [worker, hi, hinit, hle1, isErr]
  · intro hi hle
    simp [worker, hi, hle]

/-- C5 witness: with block 5 already scanned, the tick observing block 5
invokes no worker, and a direct worker invocation at block 5 aborts with the
exact error. -/
theorem tick_same_block_no_submissions_witness :
    ienvW.getBlock = Except.ok 5 ∧
    TickStep.workerInvoked 5 ∉ intervalHandlerSteps cfgBase ienvW 5 ∧
    isErr (worker cfgBase srvW wenvW 5 stInitedW).2 = true ∧
    (worker cfgBase srvW wenvW 5 stInitedW).2 =
      Except.error ("Attempt to scan older block, aborting") :=
  ⟨rfl,
   (tick_same_block_no_submissions cfgBase srvW wenvW ienvW 5 5 stInitedW).1
     rfl (Nat.le_refl 5) 5,
   (tick_same_block_no_submissions cfgBase srvW wenvW ienvW 5 5 stInitedW).2.1
     (by decide),
   (tick_same_block_no_submissions cfgBase srvW wenvW ienvW 5 5 stInitedW).2.2
     (by decide) (by decide)⟩

/-- C6 counterexample: with registrationBlockRate 0, nothing pending and the
latest relay event for the manager at block 0, the tick at block 5 passes a
false hint although currentBlock minus lastRelayEventBlock (5 - 0) is at
least registrationBlockRate (0); so the hint is not true exactly when
currentBlock - lastRelayEventBlock is at least registrationBlockRate. -/
theorem shouldRegisterAgain_counterexample :
    (shouldRegisterAgain cfgZeroRate regEnvW
        [{ event := ("RelayServerRegistered"), blockNumber := 0 }] 5 stInitedW).1 = false ∧
    (getLatestTxBlockNumber regEnvW
        [{ event := ("RelayServerRegistered"), blockNumber := 0 }] stInitedW).1 = 0 ∧
    (5 : Int) - 0 ≥ (cfgZeroRate.registrationBlockRate : Int) := by decide

/-- C6 amended: the shouldRegisterAgain hint is true exactly when
registrationBlockRate is nonzero, no RELAY_CALL or REGISTER_SERVER
transaction is pending, and currentBlock minus the latest relay event block
for the manager is at least registrationBlockRate. -/
theorem shouldRegisterAgain_amended (cfg : ServerConfigParams)
    (env : ShouldRegisterEnv) (events : List EventData) (currentBlock : Nat)
    (st : RelayServerState) :
    (shouldRegisterAgain cfg env events currentBlock st).1 = true ↔
      (cfg.registrationBlockRate ≠ 0 ∧ env.isRelayCallPending = false ∧
       env.isRegisterServerPending = false ∧
       (currentBlock : Int) - (getLatestTxBlockNumber env events st).1 ≥
         (cfg.registrationBlockRate : Int)) := by
  rcases hg : getLatestTxBlockNumber env events st with ⟨latest, st1⟩
  by_cases h0 : cfg.registrationBlockRate = 0 <;>
    by_cases h1 : env.isRelayCallPending <;>
      by_cases h2 : env.isRegisterServerPending <;>
        simp [shouldRegisterAgain, hg, h0, h1, h2]

/-- C6 witness for the amended claim: with rate 10, nothing pending and the
latest relay event at block 5, the tick at block 20 passes a true hint. -/
theorem shouldRegisterAgain_amended_witness :
    (shouldRegisterAgain cfgBase regEnvW
        [{ event := ("RelayServerRegistered"), blockNumber := 5 }] 20 stInitedW).1 = true :=
  (shouldRegisterAgain_amended cfgBase regEnvW
      [{ event := ("RelayServerRegistered"), blockNumber := 5 }] 20 stInitedW).mpr
    (by decide)

/-- handlePastHubEvents either enters the alerted state at the tick's block
(when the scan holds a TransactionRejectedByPaymaster event) or leaves the
state unchanged. -/
theorem handlePastHubEvents_eq (st : RelayServerState) (B : Nat) (evs : List EventData) :
    handlePastHubEvents st B evs =
      if evs.any (fun e => decide (e.event = TransactionRejectedByPaymaster)) then
        { st with alerted := true, alertedBlock := B }
      else st := by
  induction evs generalizing st with
  | nil => simp [handlePastHubEvents]
  | cons e rest ih =>
    have step : handlePastHubEvents st B (e :: rest) =
        handlePastHubEvents
          (if e.event = TransactionRejectedByPaymaster then
            { st with alerted := true, alertedBlock := B }
          else st) B rest := rfl
    rw [step]
    by_cases he : e.event = TransactionRejectedByPaymaster
    · rw [if_pos he, ih]
      have hany : ((e :: rest).any
          (fun e => decide (e.event = TransactionRejectedByPaymaster))) = true := by
        simp [he]
      rw [if_pos hany]
      split <;> rfl
    · rw [if_neg he, ih]
      have hany : ((e :: rest).any
            (fun e => decide (e.event = TransactionRejectedByPaymaster))) =
          rest.any (fun e => decide (e.event = TransactionRejectedByPaymaster)) := by
        simp [he]
      rw [hany]

/-- getLatestTxBlockNumber touches only lastMinedActiveTransaction: the
alerted fields and the hub address survive it. -/
theorem getLatestTxBlockNumber_preserves (env : ShouldRegisterEnv)
    (evs : List EventData) (st : RelayServerState) :
    ((getLatestTxBlockNumber env evs st).2).alerted = st.alerted ∧
    ((getLatestTxBlockNumber env evs st).2).alertedBlock = st.alertedBlock ∧
    ((getLatestTxBlockNumber env evs st).2).relayHubAddress = st.relayHubAddress := by
  unfold getLatestTxBlockNumber
  cases h1 : getLatestEventData evs with
  | none => cases h2 : st.lastMinedActiveTransaction <;> simp [h1, h2]
  | some e => simp [h1]

/-- The registration hint computation touches only
lastMinedActiveTransaction: the alerted fields survive it. -/
theorem shouldRegisterAgain_preserves (cfg : ServerConfigParams)
    (env : ShouldRegisterEnv) (evs : List EventData) (B : Nat)
    (st : RelayServerState) :
    ((shouldRegisterAgain cfg env evs B st).2).alerted = st.alerted ∧
    ((shouldRegisterAgain cfg env evs B st).2).alertedBlock = st.alertedBlock ∧
    ((shouldRegisterAgain cfg env evs B st).2).relayHubAddress = st.relayHubAddress := by
  rcases hg : getLatestTxBlockNumber env evs st with ⟨l, st1⟩
  have hp := getLatestTxBlockNumber_preserves env evs st
  rw [hg] at hp
  simp only [shouldRegisterAgain, hg]
  split <;> simp_all

/-- C7 counterexample: a tick at block 10 on which the manager is not
registered returns early and does not clear the alerted state, although
alerted is true and alertedBlock + alertedBlockDelay (0 + 1) is below 10; so
the alerted state is not cleared on every such tick. -/
theorem alerted_clear_counterexample :
    stAlertedW.alerted = true ∧
    stAlertedW.alertedBlock + cfgBase.alertedBlockDelay < 10 ∧
    ((handleChanges cfgBase srvW hcEnvNotReg 10 stAlertedW).1).alerted = true := by
  decide

/-- C7 amended: a tick at block B that reaches the event-handling phase (the
manager is registered) and scans a TransactionRejectedByPaymaster event sets
alerted and alertedBlock := B; a tick at block B that completes its full
pass (registered, worker balance at least workerMinBalance) and scans no
such event clears alerted whenever alertedBlock + alertedBlockDelay < B. -/
theorem alerted_set_clear_amended (cfg : ServerConfigParams) (srv : ServerView)
    (env : HandleChangesEnv) (B : Nat) (st : RelayServerState) :
    (env.isRegistered = true →
      env.hubEventsSinceLastScan.any
        (fun e => decide (e.event = TransactionRejectedByPaymaster)) = true →
      ((handleChanges cfg srv env B st).1).alerted = true ∧
      ((handleChanges cfg srv env B st).1).alertedBlock = B) ∧
    (st.alerted = true → st.alertedBlock + cfg.alertedBlockDelay < B →
      env.isRegistered = true →
      env.hubEventsSinceLastScan.any
        (fun e => decide (e.event = TransactionRejectedByPaymaster)) = false →
      cfg.workerMinBalance ≤ env.workerBalance →
      ((handleChanges cfg srv env B st).1).alerted = false) := by
  rcases hsr : shouldRegisterAgain cfg env.regEnv env.hubEventsSinceLastScan B st
    with ⟨hint, st1⟩
  have hpres := shouldRegisterAgain_preserves cfg env.regEnv env.hubEventsSinceLastScan B st
  rw [hsr] at hpres
  constructor
  · intro hreg hev
    simp only [handleChanges, hsr, hreg]
    simp only [handlePastHubEvents_eq, hev, if_true]
    by_cases hwb : env.workerBalance < cfg.workerMinBalance
    · simp [setReadyState, hwb]
    · simp only [setReadyState, if_neg hwb]
      have hno : ¬ (B + cfg.alertedBlockDelay < B) := by omega
      simp [hno]
  · intro hal hdel hreg hev hwb
    simp only [handleChanges, hsr, hreg]
    simp only [handlePastHubEvents_eq, hev]
    have hwb2 : ¬ (env.workerBalance < cfg.workerMinBalance) := not_lt.mpr hwb
    simp only [setReadyState, hwb2, if_false]
    have hcond : st1.alerted = true ∧ st1.alertedBlock + cfg.alertedBlockDelay < B := by
      refine ⟨by rw [hpres.1, hal], ?_⟩
      rw [hpres.2.1]
      exact hdel
    simp [hcond.1, hcond.2]

/-- C7 witness: a registered tick at block 9 scanning a
TransactionRejectedByPaymaster event sets alerted with alertedBlock 9, and a
full registered pass at block 10 with no such event clears the alerted state
entered at block 0 with delay 1. -/
theorem alerted_set_clear_amended_witness :
    (((handleChanges cfgBase srvW hcEnvRejected 9 stInitedW).1).alerted = true ∧
     ((handleChanges cfgBase srvW hcEnvRejected 9 stInitedW).1).alertedBlock = 9) ∧
    ((handleChanges cfgBase srvW hcEnvW 10 stAlertedW).1).alerted = false :=
  ⟨(alerted_set_clear_amended cfgBase srvW hcEnvRejected 9 stInitedW).1
      rfl (by decide),
   (alerted_set_clear_amended cfgBase srvW hcEnvW 10 stAlertedW).2
      rfl (by decide) rfl (by decide) (by decide)⟩

/-- C9: the readyTimeout watchdog is armed only when devMode is false: with
devMode true no tick ever contains a watchdog reset, so lastSuccessfulRounds
is never zeroed by a readyTimeout expiry; with devMode false an expiry
during the tick is the tick's first step and zeroes lastSuccessfulRounds. -/
theorem readyTimeout_devMode_gate (cfg : ServerConfigParams) (env : IntervalEnv)
    (lastScannedBlock : Nat) (st : RelayServerState) :
    (cfg.devMode = true →
      TickStep.timeoutReset ∉ intervalHandlerSteps cfg env lastScannedBlock) ∧
    (cfg.devMode = false → env.timerExpires = true →
      (intervalHandlerSteps cfg env lastScannedBlock).head? = some TickStep.timeoutReset ∧
      (applyTickStep st TickStep.timeoutReset).lastSuccessfulRounds = 0) := by
  constructor
  · intro hdev hmem
    rcases List.mem_append.mp hmem with h | h
    · rw [if_neg (by simp [hdev])] at h
      simp at h
    · revert h
      cases hb : env.getBlock with
      | error e => simp [intervalHandlerSteps, hb]
      | ok n =>
        simp only [intervalHandlerSteps, hb]
        split
        · split
          · simp
          · split <;> simp
        · simp
  · intro hdev hexp
    refine ⟨?_, rfl⟩
    simp [intervalHandlerSteps, hdev, hexp]

/-- C9 witness: with devMode on the expired-timer tick contains no watchdog
reset; with devMode off the same expired-timer tick starts with the watchdog
reset, which zeroes the round counter. -/
theorem readyTimeout_devMode_gate_witness :
    TickStep.timeoutReset ∉ intervalHandlerSteps cfgDev ienvExpired 5 ∧
    (intervalHandlerSteps cfgBase ienvExpired 5).head? = some TickStep.timeoutReset ∧
    (applyTickStep stInitedW TickStep.timeoutReset).lastSuccessfulRounds = 0 :=
  ⟨(readyTimeout_devMode_gate cfgDev ienvExpired 5 stInitedW).1 rfl,
   (readyTimeout_devMode_gate cfgBase ienvExpired 5 stInitedW).2 rfl rfl⟩

/-- A successful init marks the server initialized. -/
theorem init_ok_initialized (cfg : ServerConfigParams) (env : InitEnv)
    (st st2 : RelayServerState) (h : init cfg env st = (st2, Except.ok ())) :
    st2.initialized = true := by
  rcases hl : initTrustedLoop env.trustedFetch cfg.trustedPaymasters [] with ⟨m, r⟩
  simp only [init, hl] at h
  split at h
  · simp at h
  · split at h
    · simp at h
    · split at h
      · simp at h
      · split at h
        · simp at h
        · rw [Prod.mk.injEq] at h
          rw [← h.1]

/-- C10: calling init() a second time after a successful first call throws
the exact error, before performing any initialization step and leaving the
server state unchanged. -/
theorem init_second_call_throws (cfg cfg2 : ServerConfigParams)
    (env env2 : InitEnv) (st st2 : RelayServerState)
    (h : init cfg env st = (st2, Except.ok ())) :
    init cfg2 env2 st2 = (st2, Except.error ("_init was already called")) := by
  have hinit : st2.initialized = true := init_ok_initialized cfg env st st2 h
  simp [init, hinit]

/-- C10 witness: on a concrete environment the first init succeeds and the
second call on the resulting state returns it unchanged with the exact
error. -/
theorem init_second_call_throws_witness :
    init cfgBase initEnvW ((init cfgBase initEnvW initialServerState).1) =
      ((init cfgBase initEnvW initialServerState).1,
        Except.error ("_init was already called")) :=
  init_second_call_throws cfgBase cfgBase initEnvW initEnvW initialServerState
    ((init cfgBase initEnvW initialServerState).1) rfl

end GSN
